import Mathlib

/-!
Shallow embedding of the storjcloud-client discovery/aggregation engine.

Sources embedded here:
  - src/src/discovery.py  (DockerDiscovery, PortScanner)
  - src/src/sync.py       (NodeSync)
  - src/src/auth.py       (AuthManager)
  - src/storjcloud-client.py (handle_discover aggregation)

Modelling conventions:
  - JSON numbers used as byte counts / seconds are Int; reputation scores
    (floats in the source) are modelled as exact rationals.
  - A Python dict field accessed with .get(key, default) is an Option field
    read with getD.
  - Python truthiness of the timestamp-valued fields lastContactSuccess and
    disqualified: None and the empty string are falsy, any other string truthy.
  - HTTP calls are oracles passed in as arguments; a raised exception at an
    HTTP call (timeout, connection error) is an explicit constructor of the
    outcome type.  Code-internal raises (int() parse failure, missing dict
    key) are modelled with Except / Option at the raising spot and handled
    exactly where the source's try/except handles them.
-/

/-- Raw reputation sub-document of the node status API response. -/
structure Reputation where
  auditScore : Option ℚ
  suspensionScore : Option ℚ
deriving DecidableEq

/-- Raw diskSpace sub-document.  A raw total field is allowed to be present
so that we can state that the code never reads it. -/
structure DiskSpaceDoc where
  used : Option Int
  available : Option Int
  total : Option Int
deriving DecidableEq

/-- Raw bandwidth sub-document. -/
structure Bandwidth where
  used : Option Int
deriving DecidableEq

/-- Parsed JSON status document returned by GET /api/sno.  Fields the code
never reads are omitted; satellite entries are opaque strings. -/
structure StatusDoc where
  nodeID : Option String
  version : Option String
  lastContactSuccess : Option String
  disqualified : Option String
  reputation : Option Reputation
  diskSpace : Option DiskSpaceDoc
  bandwidth : Option Bandwidth
  uptime : Option Int
  satellites : Option (List String)
deriving DecidableEq

/-- Python truthiness of an optional string-valued JSON field:
absent (None) and the empty string are falsy. -/
def pyTruthyStr : Option String → Bool
  | none => false
  | some s => s != ""

/-- node_data.get(diskSpace, \x7b\x7d).get(used, 0) -/
def disk_used (d : StatusDoc) : Int :=
  match d.diskSpace with
  | some ds => ds.used.getD 0
  | none => 0

/-- node_data.get(diskSpace, \x7b\x7d).get(available, 0) -/
def disk_available (d : StatusDoc) : Int :=
  match d.diskSpace with
  | some ds => ds.available.getD 0
  | none => 0

/-- DockerDiscovery._determine_status (src/src/discovery.py lines 193-209).
Note: there is no disqualified check in this classifier. -/
def DockerDiscovery.determine_status (node_data : StatusDoc) : String :=
  if !(pyTruthyStr node_data.lastContactSuccess) then "OFFLINE"
  else
    match node_data.reputation with
    | some reputation =>
      let audit_score := reputation.auditScore.getD 1
      let suspension_score := reputation.suspensionScore.getD 0
      if suspension_score > 0 then "SUSPENDED"
      else if audit_score < 0.95 then "WARNING"
      else "ONLINE"
    | none => "ONLINE"

/-- PortScanner._determine_status (src/src/discovery.py lines 266-282).
Textually identical to the DockerDiscovery classifier in the source. -/
def PortScanner.determine_status (node_data : StatusDoc) : String :=
  if !(pyTruthyStr node_data.lastContactSuccess) then "OFFLINE"
  else
    match node_data.reputation with
    | some reputation =>
      let audit_score := reputation.auditScore.getD 1
      let suspension_score := reputation.suspensionScore.getD 0
      if suspension_score > 0 then "SUSPENDED"
      else if audit_score < 0.95 then "WARNING"
      else "ONLINE"
    | none => "ONLINE"

/-- A runtime port mapping entry, NetworkSettings.Ports values. -/
structure PortMapping where
  hostPort : String
deriving DecidableEq

/-- Container attributes read by DockerDiscovery: Name, Config.Image, the
container id, NetworkSettings.Ports (a dict, kept in insertion order) and
Config.Env. -/
structure ContainerAttrs where
  name : String
  image : String
  id : String
  ports : List (String × List PortMapping)
  env : List String
deriving DecidableEq

/-- Python str.startswith. -/
def pyStartsWith (s pre : String) : Bool :=
  pre.data.isPrefixOf s.data

/-- Python str.endswith. -/
def pyEndsWith (s suf : String) : Bool :=
  suf.data.isSuffixOf s.data

/-- Python membership test of a single character in a string. -/
def pyContainsChar (s : String) (c : Char) : Bool :=
  s.data.contains c

/-- Python slicing s from index n on (code points). -/
def pyDropChars (n : Nat) (s : String) : String :=
  String.mk (s.data.drop n)

/-- Accumulator for pySplitChar: cut the character list at the separator. -/
def splitCharAux (c : Char) : List Char → List Char → List (List Char)
  | [], acc => [acc.reverse]
  | x :: xs, acc =>
    if x == c then acc.reverse :: splitCharAux c xs []
    else splitCharAux c xs (x :: acc)

/-- Python s.split(sep) for a one-character separator. -/
def pySplitChar (c : Char) (s : String) : List String :=
  (splitCharAux c s.data []).map (fun l => String.mk l)

/-- Decimal accumulation for pyInt. -/
def pyDigitsAux : Nat → List Char → Option Nat
  | acc, [] => some acc
  | acc, c :: cs =>
    if c.isDigit then pyDigitsAux (acc * 10 + (c.toNat - 48)) cs else none

/-- Nonempty all-digit parse for pyInt. -/
def pyDigitsNonempty : List Char → Option Nat
  | [] => none
  | cs => pyDigitsAux 0 cs

/-- Python int(s) on the strings this program feeds it (an optional minus
sign followed by decimal digits); parse failure is a raised ValueError,
handled at the call sites exactly where the source handles (or fails to
handle) it. -/
def pyInt (s : String) : Option Int :=
  match s.data with
  | '-' :: cs => (pyDigitsNonempty cs).map (fun n => -(n : Int))
  | cs => (pyDigitsNonempty cs).map (fun n => (n : Int))

/-- s.split(sep)[-1] for sep = colon. -/
def pyLastColonSeg (s : String) : String :=
  (pySplitChar ':' s).getLastD ""

/-- s.lstrip with a slash argument. -/
def pyLstripSlash (s : String) : String :=
  String.mk (s.data.dropWhile (fun c => c == '/'))

/-- Dict membership plus lookup on the Ports mapping. -/
def portsLookup (ports : List (String × List PortMapping)) (key : String) :
    Option (List PortMapping) :=
  (ports.find? (fun p => p.1 == key)).map (fun p => p.2)

/-- Env-var scan for CONSOLE_ADDRESS inside _get_dashboard_port
(src/src/discovery.py lines 141-147): the first CONSOLE_ADDRESS variable
whose value contains a colon yields int() of the last colon segment;
a variable without a colon is skipped and the scan continues. -/
def console_address_port : List String → Except Unit (Option Int)
  | [] => .ok none
  | env_var :: rest =>
    if pyStartsWith env_var "CONSOLE_ADDRESS=" then
      let address := pyDropChars 16 env_var
      if pyContainsChar address ':' then
        match pyInt (pyLastColonSeg address) with
        | some n => .ok (some n)
        | none => .error ()
      else console_address_port rest
    else console_address_port rest

/-- Range fallback inside _get_dashboard_port (src/src/discovery.py lines
149-155): first mapped tcp port whose container port is in 14000-15000. -/
def range_fallback : List (String × List PortMapping) → Except Unit (Option Int)
  | [] => .ok none
  | (port_spec, mapping) :: rest =>
    match mapping with
    | [] => range_fallback rest
    | m :: _ =>
      if pyEndsWith port_spec "/tcp" then
        match pyInt ((pySplitChar '/' port_spec).headD "") with
        | none => .error ()
        | some container_port =>
          if 14000 ≤ container_port ∧ container_port ≤ 15000 then
            match pyInt m.hostPort with
            | some n => .ok (some n)
            | none => .error ()
          else range_fallback rest
      else range_fallback rest

/-- DockerDiscovery._get_dashboard_port (src/src/discovery.py lines
130-157): mapped 14002/tcp first, then CONSOLE_ADDRESS, then the
14000-15000 range fallback.  An int() parse failure raises (Except). -/
def DockerDiscovery.get_dashboard_port (attrs : ContainerAttrs) :
    Except Unit (Option Int) :=
  match portsLookup attrs.ports "14002/tcp" with
  | some (m :: _) =>
    match pyInt m.hostPort with
    | some n => .ok (some n)
    | none => .error ()
  | _ =>
    match console_address_port attrs.env with
    | .error e => .error e
    | .ok (some n) => .ok (some n)
    | .ok none => range_fallback attrs.ports

/-- Env-var scan for ADDRESS inside _get_storage_port
(src/src/discovery.py lines 168-173). -/
def address_env_port : List String → Except Unit (Option Int)
  | [] => .ok none
  | env_var :: rest =>
    if pyStartsWith env_var "ADDRESS=" then
      let address := pyDropChars 8 env_var
      if pyContainsChar address ':' then
        match pyInt (pyLastColonSeg address) with
        | some n => .ok (some n)
        | none => .error ()
      else address_env_port rest
    else address_env_port rest

/-- DockerDiscovery._get_storage_port (src/src/discovery.py lines
159-175): mapped 28967/tcp, then ADDRESS env var, then default 28967. -/
def DockerDiscovery.get_storage_port (attrs : ContainerAttrs) :
    Except Unit Int :=
  match portsLookup attrs.ports "28967/tcp" with
  | some (m :: _) =>
    match pyInt m.hostPort with
    | some n => .ok n
    | none => .error ()
  | _ =>
    match address_env_port attrs.env with
    | .error e => .error e
    | .ok (some n) => .ok n
    | .ok none => .ok 28967

/-- Disk sub-record of a discovered node as built by both discoverers. -/
structure DiskInfo where
  used : Int
  available : Int
  total : Int
deriving DecidableEq

/-- Node record dict built by DockerDiscovery._extract_node_info and
PortScanner._check_port.  Container fields are absent (none) on the
port-scan side. -/
structure NodeRecord where
  node_id : String
  name : String
  address : String
  dashboard_port : Int
  storage_port : Int
  version : String
  status : String
  disk_space : DiskInfo
  bandwidth : Bandwidth
  uptime : Int
  last_contact : Option String
  container_id : Option String
  container_name : Option String
  image : Option String
  detected_from : String
deriving DecidableEq

/-- DockerDiscovery._extract_node_info (src/src/discovery.py lines 76-128),
given the container attrs and the dashboard-probe oracle fetch (none models
a failed probe, or a falsy empty document).  The outer try/except maps every
modelled raise to None; a falsy (zero) dashboard port is also skipped. -/
def DockerDiscovery.extract_node_info (attrs : ContainerAttrs)
    (fetch : Int → Option StatusDoc) : Option NodeRecord :=
  let name := pyLstripSlash attrs.name
  match DockerDiscovery.get_dashboard_port attrs with
  | .error _ => none
  | .ok none => none
  | .ok (some dashboard_port) =>
    if dashboard_port == 0 then none
    else
      match fetch dashboard_port with
      | none => none
      | some node_data =>
        match DockerDiscovery.get_storage_port attrs with
        | .error _ => none
        | .ok storage_port =>
          some {
            node_id := node_data.nodeID.getD ""
            name := name
            address := "127.0.0.1"
            dashboard_port := dashboard_port
            storage_port := storage_port
            version := node_data.version.getD ""
            status := DockerDiscovery.determine_status node_data
            disk_space := {
              used := disk_used node_data
              available := disk_available node_data
              total := disk_used node_data + disk_available node_data }
            bandwidth := node_data.bandwidth.getD { used := none }
            uptime := node_data.uptime.getD 0
            last_contact := node_data.lastContactSuccess
            container_id := some attrs.id
            container_name := some name
            image := some attrs.image
            detected_from := "docker" }

/-- PortScanner._check_port (src/src/discovery.py lines 232-264), given the
HTTP outcome of the probe of one port (none models a non-200 response or a
raised exception, both of which make the function return None). -/
def PortScanner.check_port (host : String) (port : Int)
    (response : Option StatusDoc) : Option NodeRecord :=
  match response with
  | none => none
  | some node_data =>
    some {
      node_id := node_data.nodeID.getD ""
      name := "Node-" ++ toString port
      address := host
      dashboard_port := port
      storage_port := 28967
      version := node_data.version.getD ""
      status := PortScanner.determine_status node_data
      disk_space := {
        used := disk_used node_data
        available := disk_available node_data
        total := disk_used node_data + disk_available node_data }
      bandwidth := node_data.bandwidth.getD { used := none }
      uptime := node_data.uptime.getD 0
      last_contact := node_data.lastContactSuccess
      container_id := none
      container_name := none
      image := none
      detected_from := "port_scan" }

/-- Replace the raw total field of the diskSpace sub-document, leaving
every other field alone; used to state that the raw total is never read. -/
def set_raw_total (t : Option Int) (d : StatusDoc) : StatusDoc :=
  { d with diskSpace := d.diskSpace.map (fun ds => { ds with total := t }) }

/-- Dict assignment unique_nodes[node.node_id] = node of handle_discover
(src/storjcloud-client.py lines 148-150): insertion-ordered, replacing in
place on an existing key. -/
def dedup_insert (m : List NodeRecord) (node : NodeRecord) : List NodeRecord :=
  if m.any (fun x => x.node_id == node.node_id) then
    m.map (fun x => if x.node_id == node.node_id then node else x)
  else m ++ [node]

/-- The aggregation step of handle_discover (src/storjcloud-client.py lines
147-152): build the unique_nodes dict over the concatenated discoverer
outputs and take its values. -/
def aggregate_unique (discovered_nodes : List NodeRecord) : List NodeRecord :=
  discovered_nodes.foldl dedup_insert []

/-- Records of a list carrying a given node_id, in order. -/
def keyFilter (k : String) (m : List NodeRecord) : List NodeRecord :=
  m.filter (fun x => x.node_id == k)

/-- NodeSync._determine_status (src/src/sync.py lines 174-194).
This classifier, and only this one, has the disqualified check. -/
def NodeSync.determine_status (node_data : StatusDoc) : String :=
  if !(pyTruthyStr node_data.lastContactSuccess) then "OFFLINE"
  else if pyTruthyStr node_data.disqualified then "DISQUALIFIED"
  else
    match node_data.reputation with
    | some reputation =>
      let audit_score := reputation.auditScore.getD 1
      let suspension_score := reputation.suspensionScore.getD 0
      if suspension_score > 0 then "SUSPENDED"
      else if audit_score < 0.95 then "WARNING"
      else "ONLINE"
    | none => "ONLINE"

/-- Outcome of one HTTP request: a status code, or a raised exception
(timeout, connection failure). -/
inductive HttpOutcome where
  | status (n : Nat)
  | exc
deriving DecidableEq

/-- Parsed account info returned by GET /auth/me. -/
structure UserData where
  email : Option String
  permissions : List String
deriving DecidableEq

/-- Response to the token-validation GET: an HTTP status plus the parse
result of the body (none when response.json() would raise). -/
structure AuthResp where
  status : Nat
  json : Option UserData
deriving DecidableEq

/-- AuthManager.test_token (src/src/auth.py lines 21-40).  The argument is
the outcome of the single GET; .error models a raised network exception.
Every failure path logs and returns None. -/
def AuthManager.test_token (resp : Except Unit AuthResp) : Option UserData :=
  match resp with
  | .error _ => none
  | .ok r =>
    if r.status == 200 then r.json
    else if r.status == 401 then none
    else none

/-- The config sub-dict of the registration payload. -/
structure RegPayloadConfig where
  detectedFrom : String
  containerId : Option String
  containerName : Option String
  image : Option String
deriving DecidableEq

/-- Registration payload built by AuthManager._register_single_node
(src/src/auth.py lines 62-82). -/
structure RegPayload where
  nodeId : String
  name : String
  address : String
  port : Int
  dashboardPort : Int
  version : String
  status : String
  allocatedSpace : Int
  usedSpace : Int
  availableSpace : Int
  bandwidthUsed : Int
  uptime : Int
  lastSeen : Option String
  config : RegPayloadConfig
deriving DecidableEq

/-- The node_data dict literal of _register_single_node (src/src/auth.py
lines 62-82), built from a discovered node record. -/
def AuthManager.build_node_data (node : NodeRecord) : RegPayload :=
  { nodeId := node.node_id
    name := node.name
    address := node.address
    port := node.storage_port
    dashboardPort := node.dashboard_port
    version := node.version
    status := node.status
    allocatedSpace := node.disk_space.total
    usedSpace := node.disk_space.used
    availableSpace := node.disk_space.available
    bandwidthUsed := node.bandwidth.used.getD 0
    uptime := node.uptime
    lastSeen := node.last_contact
    config := {
      detectedFrom := node.detected_from
      containerId := node.container_id
      containerName := node.container_name
      image := node.image } }

/-- AuthManager._update_existing_node (src/src/auth.py lines 106-123): a
PATCH with the same payload, success on 200 or 204, failure otherwise or
on a raised exception. -/
def AuthManager.update_existing_node
    (patch : String → RegPayload → HttpOutcome)
    (node : NodeRecord) (node_data : RegPayload) : Bool :=
  match patch node.node_id node_data with
  | .status m => m == 200 || m == 204
  | .exc => false

/-- AuthManager._register_single_node (src/src/auth.py lines 56-104): POST
the payload; 200/201 success, 409 falls back to the PATCH update with the
same payload, 401 and every other status or raised exception is a failure
for this record only. -/
def AuthManager.register_single_node
    (post : RegPayload → HttpOutcome)
    (patch : String → RegPayload → HttpOutcome)
    (node : NodeRecord) : Bool :=
  let node_data := AuthManager.build_node_data node
  match post node_data with
  | .status n =>
    if n == 200 || n == 201 then true
    else if n == 409 then AuthManager.update_existing_node patch node node_data
    else if n == 401 then false
    else false
  | .exc => false

/-- AuthManager.register_nodes (src/src/auth.py lines 42-54): attempt every
record in order and return how many succeeded. -/
def AuthManager.register_nodes
    (post : RegPayload → HttpOutcome)
    (patch : String → RegPayload → HttpOutcome)
    (nodes : List NodeRecord) : Nat :=
  nodes.foldl
    (fun registered_count node =>
      if AuthManager.register_single_node post patch node
      then registered_count + 1 else registered_count) 0

/-- Bool 2xx test, used only to state the claimed success criterion. -/
def is2xx (n : Nat) : Bool :=
  decide (200 ≤ n) && decide (n ≤ 299)

/-- Success criterion for one record exactly as the claim words it (a
record succeeds if its POST returns 2xx, or the POST returns 409 and the
fallback PATCH with the same payload returns 2xx); stated for comparison
with the source function AuthManager.register_single_node. -/
def claimed_register_success
    (post : RegPayload → HttpOutcome)
    (patch : String → RegPayload → HttpOutcome)
    (node : NodeRecord) : Bool :=
  let node_data := AuthManager.build_node_data node
  match post node_data with
  | .status n =>
    if is2xx n then true
    else if n == 409 then
      match patch node.node_id node_data with
      | .status m => is2xx m
      | .exc => false
    else false
  | .exc => false

/-- A node entry returned by GET /storj/nodes, as read by the sync loop:
the registry id (node.id, a required key whose absence raises KeyError),
the storj node id, and the last-known address and dashboard port. -/
structure NodeRef where
  id : Option String
  nodeId : Option String
  address : Option String
  dashboardPort : Option Int
deriving DecidableEq

/-- Outcome of the GET issued against a node dashboard: an HTTP response
with its parse result, or a raised exception (timeout included). -/
inductive ProbeResult where
  | resp (status : Nat) (body : Option StatusDoc)
  | exc
deriving DecidableEq

/-- NodeSync._fetch_node_data (src/src/sync.py lines 124-140).  The probe
oracle gives the outcome of the GET for an address and port.  Python
dashboardPort-or-14002 treats an absent or zero port as 14002.  Every
non-200 outcome, raised exception or unparsable body yields None. -/
def NodeSync.fetch_node_data (probe : String → Int → ProbeResult)
    (node : NodeRef) : Option StatusDoc :=
  let dashboard_port :=
    match node.dashboardPort with
    | some p => if p == 0 then 14002 else p
    | none => 14002
  let address := node.address.getD "127.0.0.1"
  match probe address dashboard_port with
  | .resp 200 body => body
  | .resp _ _ => none
  | .exc => none

/-- The update_data dict built by NodeSync._update_node (src/src/sync.py
lines 147-159); now is the isoformat timestamp of datetime.utcnow(). -/
structure SyncUpdate where
  status : String
  version : Option String
  usedSpace : Int
  availableSpace : Int
  bandwidthUsed : Int
  uptime : Int
  lastSeen : String
  reputation : Option Reputation
  satellites : List String
  auditScore : Option ℚ
  suspensionScore : Option ℚ
deriving DecidableEq

/-- The update_data dict literal of _update_node (src/src/sync.py lines
147-159). -/
def NodeSync.mk_update_data (now : String) (node_data : StatusDoc) :
    SyncUpdate :=
  { status := NodeSync.determine_status node_data
    version := node_data.version
    usedSpace := disk_used node_data
    availableSpace := disk_available node_data
    bandwidthUsed := (node_data.bandwidth.getD { used := none }).used.getD 0
    uptime := node_data.uptime.getD 0
    lastSeen := now
    reputation := node_data.reputation
    satellites := node_data.satellites.getD []
    auditScore := node_data.reputation.bind (fun r => r.auditScore)
    suspensionScore := node_data.reputation.bind (fun r => r.suspensionScore) }

/-- NodeSync._update_node (src/src/sync.py lines 142-172): PATCH the
transformed data; 200/204 success, anything else (401 included) or a
raised exception is failure. -/
def NodeSync.update_node (patch : String → SyncUpdate → HttpOutcome)
    (now : String) (node_id : String) (node_data : StatusDoc) : Bool :=
  let update_data := NodeSync.mk_update_data now node_data
  match patch node_id update_data with
  | .status n => n == 200 || n == 204
  | .exc => false

/-- NodeSync._sync_node (src/src/sync.py lines 104-122): fetch the live
status, then update the registry entry; the enclosing try/except turns a
missing id key (KeyError) and every other failure into False. -/
def NodeSync.sync_node (probe : String → Int → ProbeResult)
    (patch : String → SyncUpdate → HttpOutcome) (now : String)
    (node : NodeRef) : Bool :=
  match NodeSync.fetch_node_data probe node with
  | none => false
  | some node_data =>
    match node.id with
    | none => false
    | some nid => NodeSync.update_node patch now nid node_data

/-- NodeSync._sync_batch (src/src/sync.py lines 93-102): gather the
per-node results (asyncio.gather with return_exceptions never propagates a
task failure to its siblings) and log the success and error counts, the
batch's observable outcome. -/
def NodeSync.sync_batch (probe : String → Int → ProbeResult)
    (patch : String → SyncUpdate → HttpOutcome) (now : String)
    (nodes : List NodeRef) : Nat × Nat :=
  let results := nodes.map (NodeSync.sync_node probe patch now)
  let success_count := results.count true
  (success_count, results.length - success_count)

/-- Outcome of GET /storj/nodes: status plus parsed body (none when the
body fails to parse); or a raised exception. -/
inductive RegistryListResult where
  | resp (status : Nat) (body : Option (List NodeRef))
  | exc
deriving DecidableEq

/-- NodeSync._get_registered_nodes (src/src/sync.py lines 77-91): the node
list on HTTP 200 (missing nodes key or an unparsable body giving an empty
list), an empty list on any other status or raised exception. -/
def NodeSync.get_registered_nodes (resp : RegistryListResult) :
    List NodeRef :=
  match resp with
  | .resp 200 body => body.getD []
  | .resp _ _ => []
  | .exc => []

/-- Python slicing loop nodes from i to i plus batch_size for i in range.
A zero batch_size raises in Python (caught by the cycle's try/except); the
model returns no batches there. -/
def chunks (batch_size : Nat) (l : List NodeRef) : List (List NodeRef) :=
  if h : batch_size = 0 ∨ l.isEmpty then []
  else l.take batch_size :: chunks batch_size (l.drop batch_size)
termination_by l.length
decreasing_by
  simp only [List.length_drop]
  push_neg at h
  obtain ⟨hbs, hne⟩ := h
  have h1 : l ≠ [] := by
    intro hnil
    rw [hnil] at hne
    simp at hne
  have h2 : 0 < l.length := List.length_pos.mpr h1
  omega

/-- NodeSync._sync_cycle (src/src/sync.py lines 56-75): list the
registered nodes, partition them into batches, run the batches strictly in
sequence, and return the per-batch success and error counts (the cycle's
log observables).  The body of the cycle raises nowhere in the model, and
its try/except would swallow a raise anyway, so the cycle is total. -/
def NodeSync.sync_cycle (probe : String → Int → ProbeResult)
    (patch : String → SyncUpdate → HttpOutcome) (now : String)
    (resp : RegistryListResult) (batch_size : Nat) : List (Nat × Nat) :=
  let nodes := NodeSync.get_registered_nodes resp
  if nodes.isEmpty then []
  else (chunks batch_size nodes).map (NodeSync.sync_batch probe patch now)

/-! Concrete documents used by counterexamples and witnesses. -/

/-- A status document with a successful last contact and a disqualification
timestamp, and no reputation block. -/
def c1doc : StatusDoc :=
  { nodeID := none
    version := none
    lastContactSuccess := some "2024-01-01T00:00:00Z"
    disqualified := some "2023-06-01T00:00:00Z"
    reputation := none
    diskSpace := none
    bandwidth := none
    uptime := none
    satellites := none }

/-- A status document with a successful last contact, no disqualification,
suspension score 0.1 and audit score 0.5. -/
def c7doc : StatusDoc :=
  { nodeID := none
    version := none
    lastContactSuccess := some "2024-01-01T00:00:00Z"
    disqualified := none
    reputation := some { auditScore := some 0.5, suspensionScore := some 0.1 }
    diskSpace := none
    bandwidth := none
    uptime := none
    satellites := none }

/-- C10: the two discovery-side health classifiers are extensionally equal:
DockerDiscovery and PortScanner determine_status agree on every status
document (the source bodies are textually identical). -/
theorem discovery_classifiers_agree :
    ∀ d : StatusDoc,
      DockerDiscovery.determine_status d = PortScanner.determine_status d :=
  fun _ => rfl

/-- C1 counterexample: a status document with a successful last-contact
timestamp that marks the node as disqualified, on which the two discovery
classifiers return ONLINE, not DISQUALIFIED — so the claim fails for the
container-discovery and port-scan classifiers. -/
theorem c1_counterexample :
    pyTruthyStr c1doc.lastContactSuccess = true
    ∧ pyTruthyStr c1doc.disqualified = true
    ∧ DockerDiscovery.determine_status c1doc = "ONLINE"
    ∧ PortScanner.determine_status c1doc = "ONLINE" := by
  decide

/-- Every output of the container-discovery classifier is one of OFFLINE,
SUSPENDED, WARNING and ONLINE; in particular never DISQUALIFIED. -/
lemma docker_status_ne_disqualified (d : StatusDoc) :
    DockerDiscovery.determine_status d ≠ "DISQUALIFIED" := by
  unfold DockerDiscovery.determine_status
  split
  · decide
  · split
    · dsimp only
      split
      · decide
      · split
        · decide
        · decide
    · decide

/-- C1 (amended): only the sync classifier has the disqualified rule: for
every status document with a successful last-contact timestamp that marks
the node disqualified, NodeSync.determine_status returns DISQUALIFIED
(after the last-contact check — a document without a successful last
contact is OFFLINE even when disqualified — and before the suspension and
audit checks, which are not consulted); the two discovery classifiers
never return DISQUALIFIED on any document. -/
theorem disqualified_only_in_sync :
    (∀ d : StatusDoc, pyTruthyStr d.lastContactSuccess = true →
      pyTruthyStr d.disqualified = true →
      NodeSync.determine_status d = "DISQUALIFIED")
    ∧ (∀ d : StatusDoc, pyTruthyStr d.lastContactSuccess = false →
      NodeSync.determine_status d = "OFFLINE")
    ∧ (∀ d : StatusDoc, DockerDiscovery.determine_status d ≠ "DISQUALIFIED"
      ∧ PortScanner.determine_status d ≠ "DISQUALIFIED") := by
  refine ⟨?_, ?_, ?_⟩
  · intro d h1 h2
    simp [NodeSync.determine_status, h1, h2]
  · intro d h1
    simp [NodeSync.determine_status, h1]
  · intro d
    refine ⟨docker_status_ne_disqualified d, ?_⟩
    have h : PortScanner.determine_status d = DockerDiscovery.determine_status d := rfl
    rw [h]
    exact docker_status_ne_disqualified d

/-- C1 witness: on the concrete disqualified document, the sync classifier
returns DISQUALIFIED while the container-discovery classifier does not. -/
theorem c1_witness :
    NodeSync.determine_status c1doc = "DISQUALIFIED"
    ∧ DockerDiscovery.determine_status c1doc ≠ "DISQUALIFIED" :=
  ⟨disqualified_only_in_sync.1 c1doc (by decide) (by decide),
   (disqualified_only_in_sync.2.2 c1doc).1⟩

/-- C7: on every status document with a successful last contact, not
disqualified, whose reputation block has suspension score 0.1 and audit
score 0.5 (so the WARNING condition also holds), all three classifiers
return SUSPENDED: the suspension check is evaluated before the audit
check and the first matching rule wins. -/
theorem suspension_precedes_audit :
    ∀ (d : StatusDoc) (rep : Reputation),
      pyTruthyStr d.lastContactSuccess = true →
      pyTruthyStr d.disqualified = false →
      d.reputation = some rep →
      rep.suspensionScore = some 0.1 →
      rep.auditScore = some 0.5 →
      NodeSync.determine_status d = "SUSPENDED"
      ∧ DockerDiscovery.determine_status d = "SUSPENDED"
      ∧ PortScanner.determine_status d = "SUSPENDED" := by
  intro d rep h1 h2 h3 h4 h5
  have hpos : (0 : ℚ) < 0.1 := by norm_num
  refine ⟨?_, ?_, ?_⟩ <;>
    simp [NodeSync.determine_status, DockerDiscovery.determine_status,
      PortScanner.determine_status, h1, h2, h3, h4, h5, hpos]

/-- C7 witness: the concrete document with suspension score 0.1 and audit
score 0.5 is classified SUSPENDED by all three classifiers. -/
theorem c7_witness :
    NodeSync.determine_status c7doc = "SUSPENDED"
    ∧ DockerDiscovery.determine_status c7doc = "SUSPENDED"
    ∧ PortScanner.determine_status c7doc = "SUSPENDED" :=
  suspension_precedes_audit c7doc
    { auditScore := some 0.5, suspensionScore := some 0.1 }
    (by decide) (by decide) rfl rfl rfl

/-- The 401 response to the token-validation GET. -/
def c4resp401 : Except Unit AuthResp :=
  Except.ok { status := 401, json := none }

/-- A 503 response to the token-validation GET. -/
def c4resp503 : Except Unit AuthResp :=
  Except.ok { status := 503, json := none }

/-- A parsed account-info body. -/
def c4user : UserData :=
  { email := some "op@example.com", permissions := ["read"] }

/-- C4 counterexample: the caller of test_token observes the same value
(None) for a 401 response and for a 503 response — the Unauthorized and
TransportError outcomes are not distinguishable to the caller, and no
error carrying the status code and body is produced. -/
theorem c4_counterexample :
    AuthManager.test_token c4resp401 = AuthManager.test_token c4resp503
    ∧ AuthManager.test_token c4resp401 = none := by
  decide

/-- C4 (amended): test_token returns the parsed account info exactly when
the HTTP status is 200 and the body parses; on 401, on every other
non-200 status and on a raised transport error it returns None (the
failure modes are logged with different messages but are not
distinguishable in the returned value, and the non-401 log line carries
the status code but not the body). -/
theorem token_validation_outcomes :
    ∀ r : AuthResp,
      (r.status = 200 → AuthManager.test_token (.ok r) = r.json)
      ∧ (r.status ≠ 200 → AuthManager.test_token (.ok r) = none)
      ∧ AuthManager.test_token (.error ()) = none := by
  intro r
  refine ⟨?_, ?_, rfl⟩
  · intro h
    simp [AuthManager.test_token, h]
  · intro h
    simp [AuthManager.test_token, h]

/-- C4 witness: a 200 response with a parsed body yields the account info,
and a 500 response yields None. -/
theorem c4_witness :
    AuthManager.test_token (Except.ok { status := 200, json := some c4user })
      = some c4user
    ∧ AuthManager.test_token (Except.ok { status := 500, json := some c4user })
      = none :=
  ⟨(token_validation_outcomes { status := 200, json := some c4user }).1 rfl,
   (token_validation_outcomes { status := 500, json := some c4user }).2.1
     (by decide)⟩

/-- C8: status-port resolution precedence in _get_dashboard_port.  With an
explicit runtime mapping for 14002/tcp whose host port parses, the mapped
host port is returned for every environment (so a conflicting
CONSOLE_ADDRESS is never consulted); with no such mapping, a port obtained
from CONSOLE_ADDRESS is returned; and when the environment scan also
yields nothing, the result is exactly the 14000-15000 range fallback. -/
theorem dashboard_port_precedence :
    ∀ (nm im cid : String) (ports : List (String × List PortMapping))
      (env : List String),
      (∀ (m : PortMapping) (ms : List PortMapping) (n : Int),
        portsLookup ports "14002/tcp" = some (m :: ms) →
        pyInt m.hostPort = some n →
        DockerDiscovery.get_dashboard_port ⟨nm, im, cid, ports, env⟩
          = .ok (some n))
      ∧ ((portsLookup ports "14002/tcp" = none
          ∨ portsLookup ports "14002/tcp" = some []) →
        (∀ n : Int, console_address_port env = .ok (some n) →
          DockerDiscovery.get_dashboard_port ⟨nm, im, cid, ports, env⟩
            = .ok (some n))
        ∧ (console_address_port env = .ok none →
          DockerDiscovery.get_dashboard_port ⟨nm, im, cid, ports, env⟩
            = range_fallback ports)) := by
  intro nm im cid ports env
  constructor
  · intro m ms n hlk hint
    unfold DockerDiscovery.get_dashboard_port
    dsimp only
    rw [hlk]
    simp only [hint]
  · intro hlk
    constructor
    · intro n hc
      unfold DockerDiscovery.get_dashboard_port
      dsimp only
      rcases hlk with h | h <;> rw [h] <;> simp only [hc]
    · intro hc
      unfold DockerDiscovery.get_dashboard_port
      dsimp only
      rcases hlk with h | h <;> rw [h] <;> simp only [hc]

/-- Container attrs with both a mapped 14002/tcp status port and a
conflicting CONSOLE_ADDRESS environment variable. -/
def c8attrs : ContainerAttrs :=
  { name := "/storagenode1"
    image := "storjlabs/storagenode"
    id := "cid123"
    ports := [("14002/tcp", [{ hostPort := "15002" }])]
    env := ["CONSOLE_ADDRESS=0.0.0.0:9999"] }

/-- C8 witness: on the conflicting container the mapped host port 15002
wins, even though the environment scan alone would give 9999. -/
theorem c8_witness :
    DockerDiscovery.get_dashboard_port c8attrs = .ok (some 15002)
    ∧ console_address_port c8attrs.env = .ok (some 9999) :=
  ⟨(dashboard_port_precedence "/storagenode1" "storjlabs/storagenode"
      "cid123" [("14002/tcp", [{ hostPort := "15002" }])]
      ["CONSOLE_ADDRESS=0.0.0.0:9999"]).1
      { hostPort := "15002" } [] 15002 rfl rfl,
   rfl⟩

/-- Replacing the raw diskSpace total leaves the used reading alone. -/
lemma disk_used_set_raw_total (t : Option Int) (d : StatusDoc) :
    disk_used (set_raw_total t d) = disk_used d := by
  cases hd : d.diskSpace <;> simp [disk_used, set_raw_total, hd]

/-- Replacing the raw diskSpace total leaves the available reading alone. -/
lemma disk_available_set_raw_total (t : Option Int) (d : StatusDoc) :
    disk_available (set_raw_total t d) = disk_available d := by
  cases hd : d.diskSpace <;> simp [disk_available, set_raw_total, hd]

/-- The container-discovery classifier never reads diskSpace. -/
lemma docker_status_set_raw_total (t : Option Int) (d : StatusDoc) :
    DockerDiscovery.determine_status (set_raw_total t d)
      = DockerDiscovery.determine_status d := rfl

/-- The port-scan classifier never reads diskSpace. -/
lemma portscan_status_set_raw_total (t : Option Int) (d : StatusDoc) :
    PortScanner.determine_status (set_raw_total t d)
      = PortScanner.determine_status d := rfl

/-- Every record built by DockerDiscovery._extract_node_info has its disk
total equal to used plus available. -/
lemma extract_disk_total (attrs : ContainerAttrs)
    (fetch : Int → Option StatusDoc) :
    ∀ rec : NodeRecord, DockerDiscovery.extract_node_info attrs fetch = some rec →
      rec.disk_space.total = rec.disk_space.used + rec.disk_space.available := by
  intro rec h
  unfold DockerDiscovery.extract_node_info at h
  dsimp only at h
  repeat' split at h
  all_goals
    first
      | exact Option.noConfusion h
      | (injection h with h2
         subst h2
         rfl)

/-- DockerDiscovery._extract_node_info ignores the raw diskSpace total of
every fetched document. -/
lemma extract_set_raw_total (attrs : ContainerAttrs)
    (fetch : Int → Option StatusDoc) (t : Option Int) :
    DockerDiscovery.extract_node_info attrs
        (fun p => (fetch p).map (set_raw_total t))
      = DockerDiscovery.extract_node_info attrs fetch := by
  unfold DockerDiscovery.extract_node_info
  dsimp only
  cases hdp : DockerDiscovery.get_dashboard_port attrs with
  | error e => rfl
  | ok o =>
    cases o with
    | none => rfl
    | some dp =>
      dsimp only
      cases hb : (dp == 0) with
      | true => simp [hb]
      | false =>
        simp only [hb, Bool.false_eq_true, if_false]
        cases hf : fetch dp with
        | none => rfl
        | some d =>
          simp only [Option.map_some']
          cases hsp : DockerDiscovery.get_storage_port attrs with
          | error e => rfl
          | ok sp =>
            simp only [disk_used_set_raw_total, disk_available_set_raw_total,
              docker_status_set_raw_total]
            exact rfl

/-- Every record built by PortScanner._check_port has its disk total equal
to used plus available. -/
lemma check_port_disk_total (host : String) (port : Int)
    (resp : Option StatusDoc) :
    ∀ rec : NodeRecord, PortScanner.check_port host port resp = some rec →
      rec.disk_space.total = rec.disk_space.used + rec.disk_space.available := by
  intro rec h
  unfold PortScanner.check_port at h
  repeat' split at h
  all_goals
    first
      | exact Option.noConfusion h
      | (injection h with h2
         subst h2
         rfl)

/-- PortScanner._check_port ignores the raw diskSpace total of the probed
document. -/
lemma check_port_set_raw_total (host : String) (port : Int) (t : Option Int)
    (resp : Option StatusDoc) :
    PortScanner.check_port host port (resp.map (set_raw_total t))
      = PortScanner.check_port host port resp := by
  cases resp with
  | none => rfl
  | some d =>
    unfold PortScanner.check_port
    simp only [Option.map_some']
    simp only [disk_used_set_raw_total, disk_available_set_raw_total,
      portscan_status_set_raw_total]
    exact rfl

/-- C9: for every status document the disk field of the constructed node
record satisfies total = used + available exactly (used and available
defaulting to 0 when absent), in both discoverers; and the builders ignore
the raw total field of the source document entirely — replacing it with an
arbitrary value changes nothing in the constructed record. -/
theorem disk_total_derived :
    ∀ (attrs : ContainerAttrs) (fetch : Int → Option StatusDoc)
      (t : Option Int) (host : String) (port : Int)
      (resp : Option StatusDoc),
      (∀ rec : NodeRecord,
        DockerDiscovery.extract_node_info attrs fetch = some rec →
        rec.disk_space.total = rec.disk_space.used + rec.disk_space.available)
      ∧ DockerDiscovery.extract_node_info attrs
          (fun p => (fetch p).map (set_raw_total t))
        = DockerDiscovery.extract_node_info attrs fetch
      ∧ (∀ rec : NodeRecord,
        PortScanner.check_port host port resp = some rec →
        rec.disk_space.total = rec.disk_space.used + rec.disk_space.available)
      ∧ PortScanner.check_port host port (resp.map (set_raw_total t))
        = PortScanner.check_port host port resp :=
  fun attrs fetch t host port resp =>
    ⟨extract_disk_total attrs fetch,
     extract_set_raw_total attrs fetch t,
     check_port_disk_total host port resp,
     check_port_set_raw_total host port t resp⟩

/-- Container attrs for the C9 witness. -/
def c9attrs : ContainerAttrs :=
  { name := "/storagenode1"
    image := "storjlabs/storagenode"
    id := "cid123"
    ports := [("14002/tcp", [{ hostPort := "15002" }])]
    env := [] }

/-- Status document with a raw diskSpace total of 5000 that disagrees with
used + available = 1000. -/
def c9doc : StatusDoc :=
  { nodeID := some "nodeA"
    version := some "1.99.5"
    lastContactSuccess := some "2024-01-01T00:00:00Z"
    disqualified := none
    reputation := none
    diskSpace := some { used := some 100, available := some 900, total := some 5000 }
    bandwidth := some { used := some 42 }
    uptime := some 3600
    satellites := none }

/-- The node record DockerDiscovery builds from c9attrs and c9doc. -/
def c9rec : NodeRecord :=
  { node_id := "nodeA"
    name := "storagenode1"
    address := "127.0.0.1"
    dashboard_port := 15002
    storage_port := 28967
    version := "1.99.5"
    status := "ONLINE"
    disk_space := { used := 100, available := 900, total := 1000 }
    bandwidth := { used := some 42 }
    uptime := 3600
    last_contact := some "2024-01-01T00:00:00Z"
    container_id := some "cid123"
    container_name := some "storagenode1"
    image := some "storjlabs/storagenode"
    detected_from := "docker" }

/-- C9 witness: the record built from a document whose raw total is 5000
carries total 1000 = 100 + 900, and replacing the raw total leaves the
port-scan builder's output unchanged. -/
theorem c9_witness :
    c9rec.disk_space.total = c9rec.disk_space.used + c9rec.disk_space.available
    ∧ PortScanner.check_port "10.0.0.5" 14500
        ((some c9doc).map (set_raw_total (some 777)))
      = PortScanner.check_port "10.0.0.5" 14500 (some c9doc) :=
  ⟨(disk_total_derived c9attrs (fun _ => some c9doc) none "10.0.0.5" 14500
      (some c9doc)).1 c9rec rfl,
   (disk_total_derived c9attrs (fun _ => some c9doc) (some 777) "10.0.0.5"
      14500 (some c9doc)).2.2.2⟩

/-- The registration fold counts exactly the successful records. -/
lemma foldl_count_register (post : RegPayload → HttpOutcome)
    (patch : String → RegPayload → HttpOutcome) :
    ∀ (nodes : List NodeRecord) (acc : Nat),
      nodes.foldl
        (fun registered_count node =>
          if AuthManager.register_single_node post patch node
          then registered_count + 1 else registered_count) acc
      = acc + nodes.countP (AuthManager.register_single_node post patch) := by
  intro nodes
  induction nodes with
  | nil => intro acc; simp
  | cons x xs ih =>
    intro acc
    simp only [List.foldl_cons, List.countP_cons]
    cases h : AuthManager.register_single_node post patch x <;>
      simp [h, ih] <;> omega

/-- C3 (amended): register_nodes attempts every record independently and
returns the number of records on which register_single_node succeeds, and
a record succeeds exactly when its POST returns 200 or 201, or the POST
returns 409 and the fallback PATCH with the same payload returns 200 or
204 (so a 401, any other status — including other 2xx codes such as 202 —
and a raised exception are failures for that record only and do not abort
the batch). -/
theorem register_counts_each_record :
    ∀ (post : RegPayload → HttpOutcome)
      (patch : String → RegPayload → HttpOutcome)
      (nodes : List NodeRecord),
      AuthManager.register_nodes post patch nodes
        = nodes.countP (AuthManager.register_single_node post patch)
      ∧ ∀ node : NodeRecord,
        (AuthManager.register_single_node post patch node = true ↔
          (post (AuthManager.build_node_data node) = .status 200
           ∨ post (AuthManager.build_node_data node) = .status 201
           ∨ (post (AuthManager.build_node_data node) = .status 409
              ∧ (patch node.node_id (AuthManager.build_node_data node)
                    = .status 200
                 ∨ patch node.node_id (AuthManager.build_node_data node)
                    = .status 204)))) := by
  intro post patch nodes
  constructor
  · unfold AuthManager.register_nodes
    simpa using foldl_count_register post patch nodes 0
  · intro node
    unfold AuthManager.register_single_node AuthManager.update_existing_node
    dsimp only
    cases hp : post (AuthManager.build_node_data node) with
    | exc => simp [hp]
    | status n =>
      simp only [hp, HttpOutcome.status.injEq]
      by_cases h200 : n = 200
      · subst h200; simp
      · by_cases h201 : n = 201
        · subst h201; simp
        · by_cases h409 : n = 409
          · subst h409
            simp only [show ((409 : Nat) == 200 || (409 : Nat) == 201) = false
              from rfl, Bool.false_eq_true, if_false, if_pos rfl]
            cases hq : patch node.node_id (AuthManager.build_node_data node) with
            | exc => simp [hq]
            | status m =>
              simp [hq, HttpOutcome.status.injEq, beq_iff_eq]
          · simp [h200, h201, h409, beq_iff_eq]

/-- A concrete discovered node record for the C3 scenario. -/
def c3node : NodeRecord :=
  { node_id := "nodeC3"
    name := "storagenode1"
    address := "127.0.0.1"
    dashboard_port := 14002
    storage_port := 28967
    version := "1.99.5"
    status := "ONLINE"
    disk_space := { used := 100, available := 900, total := 1000 }
    bandwidth := { used := some 42 }
    uptime := 3600
    last_contact := some "2024-01-01T00:00:00Z"
    container_id := none
    container_name := none
    image := none
    detected_from := "port_scan" }

/-- A POST oracle answering 202 Accepted. -/
def c3post : RegPayload → HttpOutcome := fun _ => .status 202

/-- A PATCH oracle answering 200. -/
def c3patch : String → RegPayload → HttpOutcome := fun _ _ => .status 200

/-- C3 counterexample: a POST answered with 202 — a 2xx status — is counted
as a failure by the code (it is neither 200 nor 201 nor 409), while the
claimed success criterion counts it as a success: on this one-record batch
register_nodes returns 0 but the claimed count is 1. -/
theorem c3_counterexample :
    AuthManager.register_nodes c3post c3patch [c3node] = 0
    ∧ List.countP (claimed_register_success c3post c3patch) [c3node] = 1 := by
  constructor <;> rfl

/-- C3 witness: the amended theorem applied to the concrete 202 batch. -/
theorem c3_witness :
    AuthManager.register_nodes c3post c3patch [c3node]
      = List.countP (AuthManager.register_single_node c3post c3patch)
          [c3node] :=
  (register_counts_each_record c3post c3patch [c3node]).1

/-- C5: a node whose probe or update fails (sync_node false, covering a
timed-out or raising probe and a failed PATCH alike) contributes exactly
one error to its batch and leaves the siblings' aggregate outcome exactly
what it would have been without it — every other node is still probed and
reported; and the sync cycle is a total function that always returns the
per-batch counts for every batch of the listed nodes, raising nothing. -/
theorem sync_failure_isolation :
    ∀ (probe : String → Int → ProbeResult)
      (patch : String → SyncUpdate → HttpOutcome) (now : String)
      (pre suf : List NodeRef) (x : NodeRef),
      NodeSync.sync_node probe patch now x = false →
      NodeSync.sync_batch probe patch now (pre ++ x :: suf)
        = ((NodeSync.sync_batch probe patch now (pre ++ suf)).1,
           (NodeSync.sync_batch probe patch now (pre ++ suf)).2 + 1)
      ∧ ∀ (resp : RegistryListResult) (batch_size : Nat),
        NodeSync.sync_cycle probe patch now resp batch_size
          = (chunks batch_size (NodeSync.get_registered_nodes resp)).map
              (NodeSync.sync_batch probe patch now) := by
  intro probe patch now pre suf x hx
  constructor
  · unfold NodeSync.sync_batch
    dsimp only
    have hle : (pre.map (NodeSync.sync_node probe patch now)
        ++ suf.map (NodeSync.sync_node probe patch now)).count true
        ≤ (pre.map (NodeSync.sync_node probe patch now)
        ++ suf.map (NodeSync.sync_node probe patch now)).length :=
      List.count_le_length _ _
    simp [List.map_append, List.map_cons, List.count_append,
      List.count_cons, List.length_append, List.length_cons,
      List.length_map, hx, Prod.mk.injEq] at hle ⊢
    all_goals omega
  · intro resp batch_size
    unfold NodeSync.sync_cycle
    dsimp only
    by_cases hn : (NodeSync.get_registered_nodes resp).isEmpty
    · have he : NodeSync.get_registered_nodes resp = [] :=
        List.isEmpty_iff.mp hn
      have hc : chunks batch_size ([] : List NodeRef) = [] := by
        rw [chunks]; simp
      simp [hn, he, hc]
    · simp [hn]

/-- A healthy status document served by the probed nodes in the C5
scenario. -/
def c5doc : StatusDoc :=
  { nodeID := some "nodeA"
    version := some "1.99.5"
    lastContactSuccess := some "2024-01-01T00:00:00Z"
    disqualified := none
    reputation := none
    diskSpace := some { used := some 100, available := some 900, total := none }
    bandwidth := some { used := some 42 }
    uptime := some 3600
    satellites := none }

/-- A registry node entry listening on the given dashboard port. -/
def c5node (p : Int) : NodeRef :=
  { id := some "rid1"
    nodeId := some "nodeA"
    address := some "127.0.0.1"
    dashboardPort := some p }

/-- A probe oracle that times out (raises) on port 14003 and answers 200
with a healthy document elsewhere. -/
def c5probe : String → Int → ProbeResult :=
  fun _ p => if p == 14003 then .exc else .resp 200 (some c5doc)

/-- A PATCH oracle that always answers 200. -/
def c5patch : String → SyncUpdate → HttpOutcome := fun _ _ => .status 200

/-- C5 witness: in a batch of five nodes where node 3's probe times out,
the batch outcome equals the outcome of the other four nodes plus exactly
one error. -/
theorem c5_witness :
    NodeSync.sync_batch c5probe c5patch "2024-06-01T00:00:00Z"
        [c5node 14001, c5node 14002, c5node 14003, c5node 14004,
         c5node 14005]
      = ((NodeSync.sync_batch c5probe c5patch "2024-06-01T00:00:00Z"
            [c5node 14001, c5node 14002, c5node 14004, c5node 14005]).1,
         (NodeSync.sync_batch c5probe c5patch "2024-06-01T00:00:00Z"
            [c5node 14001, c5node 14002, c5node 14004, c5node 14005]).2
           + 1) :=
  (sync_failure_isolation c5probe c5patch "2024-06-01T00:00:00Z"
    [c5node 14001, c5node 14002] [c5node 14004, c5node 14005]
    (c5node 14003) rfl).1

/-- keyFilter distributes over cons. -/
lemma keyFilter_cons (k : String) (y : NodeRecord) (m : List NodeRecord) :
    keyFilter k (y :: m)
      = if y.node_id == k then y :: keyFilter k m else keyFilter k m := by
  simp [keyFilter, List.filter_cons]

/-- keyFilter distributes over append. -/
lemma keyFilter_append (k : String) (m l : List NodeRecord) :
    keyFilter k (m ++ l) = keyFilter k m ++ keyFilter k l := by
  simp [keyFilter, List.filter_append]

/-- keyFilter on a one-record list. -/
lemma keyFilter_singleton (k : String) (r : NodeRecord) :
    keyFilter k [r] = if r.node_id == k then [r] else [] := by
  simp [keyFilter, List.filter_cons]

/-- Effect on keyFilter of the in-place dict-value replacement performed by
dedup_insert on an existing key. -/
lemma keyFilter_map_replace (r : NodeRecord) (k : String) :
    ∀ m : List NodeRecord,
      keyFilter k (m.map (fun x => if x.node_id == r.node_id then r else x))
        = if r.node_id == k then (keyFilter k m).map (fun _ => r)
          else keyFilter k m := by
  intro m
  induction m with
  | nil => by_cases hk : r.node_id = k <;> simp [keyFilter, hk]
  | cons y m ih =>
    by_cases hy : y.node_id = r.node_id
    · by_cases hk : r.node_id = k
      · have hyk : y.node_id = k := hy.trans hk
        simp only [List.map_cons, keyFilter_cons, ih]
        simp [hy, hk, hyk]
      · have hyk : ¬(y.node_id = k) := by rw [hy]; exact hk
        simp only [List.map_cons, keyFilter_cons, ih]
        simp [hy, hk, hyk]
    · by_cases hk : r.node_id = k
      · have hyk : ¬(y.node_id = k) := fun h => hy (h.trans hk.symm)
        simp only [List.map_cons, keyFilter_cons, ih]
        simp [hy, hk, hyk]
      · by_cases hyk : y.node_id = k
        · have hk2 : ¬(k = r.node_id) := fun h => hk h.symm
          simp only [List.map_cons, keyFilter_cons, ih]
          simp [hy, hk, hyk, hk2]
        · simp only [List.map_cons, keyFilter_cons, ih]
          simp [hy, hk, hyk]

/-- The membership probe of dedup_insert agrees with keyFilter. -/
lemma any_key_iff (m : List NodeRecord) (r : NodeRecord) :
    (m.any (fun x => x.node_id == r.node_id)) = true
      ↔ keyFilter r.node_id m ≠ [] := by
  simp only [keyFilter, Ne, List.filter_eq_nil_iff, List.any_eq_true,
    beq_iff_eq, not_forall]
  constructor
  · rintro ⟨x, hx, hp⟩
    exact ⟨x, hx, by simp [hp]⟩
  · rintro ⟨x, hx, hp⟩
    exact ⟨x, hx, by simpa using hp⟩

/-- One dict assignment, observed through keyFilter: the inserted record
becomes the unique record at its own key and no other key changes.  Needs
the dict invariant that the key held at most one record before. -/
lemma keyFilter_dedup_insert (m : List NodeRecord) (r : NodeRecord)
    (k : String) (hinv : (keyFilter r.node_id m).length ≤ 1) :
    keyFilter k (dedup_insert m r)
      = if r.node_id == k then [r] else keyFilter k m := by
  unfold dedup_insert
  by_cases hany : (m.any (fun x => x.node_id == r.node_id)) = true
  · rw [if_pos hany, keyFilter_map_replace]
    by_cases hk : r.node_id = k
    · subst hk
      have hne := (any_key_iff m r).mp hany
      have hpos : 0 < (keyFilter r.node_id m).length :=
        List.length_pos.mpr hne
      have hlen : (keyFilter r.node_id m).length = 1 := by omega
      obtain ⟨a, ha⟩ := List.length_eq_one.mp hlen
      simp [ha]
    · simp [hk]
  · rw [if_neg hany]
    have hkey : keyFilter r.node_id m = [] := by
      by_contra hne
      exact hany ((any_key_iff m r).mpr hne)
    rw [keyFilter_append, keyFilter_singleton]
    by_cases hk : r.node_id = k
    · subst hk
      simp [hkey]
    · simp [hk]

/-- dedup_insert preserves the dict invariant: every key holds at most one
record. -/
lemma dedup_insert_inv (m : List NodeRecord) (r : NodeRecord)
    (hinv : ∀ j, (keyFilter j m).length ≤ 1) :
    ∀ j, (keyFilter j (dedup_insert m r)).length ≤ 1 := by
  intro j
  rw [keyFilter_dedup_insert m r j (hinv r.node_id)]
  by_cases h : r.node_id = j <;> simp [h, hinv j]

/-- Folding dict assignments over a record list: each key ends up holding
exactly the last record of the list with that key, or what the initial
dict held when the list never mentions the key. -/
lemma keyFilter_foldl :
    ∀ (l m : List NodeRecord), (∀ j, (keyFilter j m).length ≤ 1) →
      ∀ k : String,
      keyFilter k (l.foldl dedup_insert m)
        = match (keyFilter k l).getLast? with
          | some r => [r]
          | none => keyFilter k m := by
  intro l
  induction l with
  | nil => intro m hm k; rfl
  | cons r l ih =>
    intro m hm k
    rw [List.foldl_cons,
      ih (dedup_insert m r) (dedup_insert_inv m r hm) k,
      keyFilter_cons]
    cases hfl : keyFilter k l with
    | nil =>
      by_cases hk : r.node_id = k
      · simp [hfl, hk, keyFilter_dedup_insert m r k (hm r.node_id)]
      · simp [hfl, hk, keyFilter_dedup_insert m r k (hm r.node_id)]
    | cons a t =>
      by_cases hk : r.node_id = k
      · simp [hfl, hk, List.getLast?_cons]
      · simp [hfl, hk, List.getLast?_cons]

/-- The aggregation of handle_discover keeps, for every node_id, exactly
the last record of the concatenated input carrying it. -/
lemma keyFilter_aggregate (l : List NodeRecord) (k : String) :
    keyFilter k (aggregate_unique l)
      = match (keyFilter k l).getLast? with
        | some r => [r]
        | none => [] := by
  unfold aggregate_unique
  rw [keyFilter_foldl l [] (by intro j; simp [keyFilter]) k]
  cases hgl : (keyFilter k l).getLast? <;> simp [keyFilter]

/-- C6: for every concatenation of discoverer outputs containing two or
more records with the same non-empty node_id, the aggregation keeps exactly
one record with that node_id — the one occurring latest in concatenation
order — and every node_id occurring in the input is still represented in
the output. -/
theorem dedup_last_write_wins :
    ∀ (l : List NodeRecord) (k : String), k ≠ "" →
      2 ≤ (keyFilter k l).length →
      (∃ r : NodeRecord, (keyFilter k l).getLast? = some r
        ∧ keyFilter k (aggregate_unique l) = [r])
      ∧ ∀ r ∈ l, ∃ q ∈ aggregate_unique l, q.node_id = r.node_id := by
  intro l k hk hlen
  constructor
  · cases hfl : keyFilter k l with
    | nil => rw [hfl] at hlen; simp at hlen
    | cons a t =>
      refine ⟨(t.getLast?).getD a, ?_, ?_⟩
      · exact List.getLast?_cons
      · rw [keyFilter_aggregate, hfl, List.getLast?_cons]
  · intro r hr
    have hmem : r ∈ keyFilter r.node_id l := by
      simp [keyFilter, List.mem_filter, hr]
    cases hfl : keyFilter r.node_id l with
    | nil => rw [hfl] at hmem; exact absurd hmem (List.not_mem_nil r)
    | cons a t =>
      have hq : keyFilter r.node_id (aggregate_unique l)
          = [(t.getLast?).getD a] := by
        rw [keyFilter_aggregate, hfl, List.getLast?_cons]
      have hmq : (t.getLast?).getD a ∈ keyFilter r.node_id (aggregate_unique l) := by
        rw [hq]; exact List.mem_singleton.mpr rfl
      simp only [keyFilter] at hmq
      obtain ⟨hin, hpred⟩ := List.mem_filter.mp hmq
      exact ⟨(t.getLast?).getD a, hin, eq_of_beq hpred⟩

/-- Base record for the C6 witness. -/
def c6base : NodeRecord :=
  { node_id := "n1"
    name := "storagenode1"
    address := "127.0.0.1"
    dashboard_port := 14002
    storage_port := 28967
    version := "1.99.5"
    status := "ONLINE"
    disk_space := { used := 100, available := 900, total := 1000 }
    bandwidth := { used := some 42 }
    uptime := 3600
    last_contact := some "2024-01-01T00:00:00Z"
    container_id := some "cid123"
    container_name := some "storagenode1"
    image := some "storjlabs/storagenode"
    detected_from := "docker" }

/-- A record from a different discoverer carrying the same node_id n1 but a
different health. -/
def c6later : NodeRecord :=
  { c6base with
    status := "WARNING"
    detected_from := "port_scan"
    container_id := none
    container_name := none
    image := none
    name := "Node-14002" }

/-- A record with a distinct node_id. -/
def c6other : NodeRecord :=
  { c6base with
    node_id := "n2"
    name := "storagenode2" }

/-- C6 witness: dedup of a concrete three-record concatenation with two n1
records keeps exactly the later n1 record and retains the n2 record. -/
theorem c6_witness :
    (∃ r : NodeRecord,
      (keyFilter "n1" [c6base, c6other, c6later]).getLast? = some r
      ∧ keyFilter "n1" (aggregate_unique [c6base, c6other, c6later]) = [r])
    ∧ ∀ r ∈ [c6base, c6other, c6later],
      ∃ q ∈ aggregate_unique [c6base, c6other, c6later],
        q.node_id = r.node_id :=
  dedup_last_write_wins [c6base, c6other, c6later] "n1"
    (by decide) (by decide)

/-- A status document without a nodeID field. -/
def c2doc : StatusDoc :=
  { nodeID := none
    version := none
    lastContactSuccess := some "2024-01-01T00:00:00Z"
    disqualified := none
    reputation := none
    diskSpace := none
    bandwidth := none
    uptime := none
    satellites := none }

/-- The record the port scanner builds from c2doc: its node_id defaults to
the empty string. -/
def c2rec : NodeRecord :=
  { node_id := ""
    name := "Node-14002"
    address := "127.0.0.1"
    dashboard_port := 14002
    storage_port := 28967
    version := ""
    status := "ONLINE"
    disk_space := { used := 0, available := 0, total := 0 }
    bandwidth := { used := none }
    uptime := 0
    last_contact := some "2024-01-01T00:00:00Z"
    container_id := none
    container_name := none
    image := none
    detected_from := "port_scan" }

/-- C2 counterexample: a discovered record with an empty node_id is not
dropped — the aggregation of handle_discover keeps it, so the aggregated
output does contain a record with an empty node_id. -/
theorem c2_counterexample :
    PortScanner.check_port "127.0.0.1" 14002 (some c2doc) = some c2rec
    ∧ c2rec.node_id = ""
    ∧ aggregate_unique [c2rec] = [c2rec] :=
  ⟨rfl, rfl, rfl⟩

/-- C2 (amended): records with an empty node_id are not dropped before
deduplication; they take part in it under the empty-string key like any
other records, so the aggregated output holds exactly the latest
empty-node_id input record whenever one exists (and none otherwise); and
the discoverers do default node_id to the empty string when the status
document lacks a nodeID field. -/
theorem empty_id_kept_last :
    (∀ l : List NodeRecord,
      keyFilter "" (aggregate_unique l)
        = match (keyFilter "" l).getLast? with
          | some r => [r]
          | none => [])
    ∧ (∀ (host : String) (port : Int) (d : StatusDoc) (rec : NodeRecord),
        d.nodeID = none →
        PortScanner.check_port host port (some d) = some rec →
        rec.node_id = "")
    ∧ ∀ (attrs : ContainerAttrs) (fetch : Int → Option StatusDoc)
        (rec : NodeRecord),
        (∀ (p : Int) (d : StatusDoc), fetch p = some d → d.nodeID = none) →
        DockerDiscovery.extract_node_info attrs fetch = some rec →
        rec.node_id = "" := by
  refine ⟨fun l => keyFilter_aggregate l "", ?_, ?_⟩
  · intro host port d rec hid h
    unfold PortScanner.check_port at h
    injection h with h2
    subst h2
    simp [hid]
  · intro attrs fetch rec hf h
    unfold DockerDiscovery.extract_node_info at h
    dsimp only at h
    cases hdp : DockerDiscovery.get_dashboard_port attrs with
    | error e => rw [hdp] at h; exact Option.noConfusion h
    | ok o =>
      rw [hdp] at h
      cases o with
      | none => exact Option.noConfusion h
      | some dp =>
        dsimp only at h
        cases hb : (dp == 0) with
        | true => rw [hb] at h; simp at h
        | false =>
          rw [hb] at h
          simp only [Bool.false_eq_true, if_false] at h
          cases hfd : fetch dp with
          | none => rw [hfd] at h; exact Option.noConfusion h
          | some d =>
            rw [hfd] at h
            cases hsp : DockerDiscovery.get_storage_port attrs with
            | error e => rw [hsp] at h; exact Option.noConfusion h
            | ok sp =>
              rw [hsp] at h
              injection h with h2
              subst h2
              simp [hf dp d hfd]

/-- C2 witness: the record built from the nodeID-less document has the
empty node_id, and aggregating it alone yields exactly that record. -/
theorem c2_witness :
    c2rec.node_id = ""
    ∧ keyFilter "" (aggregate_unique [c2rec]) = [c2rec] :=
  ⟨empty_id_kept_last.2.1 "127.0.0.1" 14002 c2doc c2rec rfl rfl,
   by rw [empty_id_kept_last.1 [c2rec]]; rfl⟩
